import Mathlib

/-!
Verification of the request/response transcoding engine of the ccr proxy
(Rust sources: src/transform/mod.rs, src/utils/mod.rs, src/routes/proxy.rs,
src/models/mod.rs).

Modelling conventions:
* serde_json::Value is embedded as the inductive type Json below; object
  fields are an association list (field order is irrelevant to every
  property considered here).
* Rust f32 values are embedded as exact unnormalized fractions (Frac):
  an integer numerator over a natural denominator, with the arithmetic
  operations the code performs (multiplication by literal constants,
  minimum, order comparisons) defined by cross multiplication.  No
  property below depends on floating-point rounding.
* External JSON parsing (serde_json::from_str) is not code of this
  repository; functions that invoke it take the parse outcome (or a parse
  oracle of type String to Option Json) as an explicit argument.
* Streaming SSE events are embedded structurally (one constructor per
  event struct of src/models/mod.rs) rather than as serialized text; the
  serialization format_sse_event is injective on this event type.
-/

/-- Exact fraction model of Rust f32 values: numerator over a (positive in
all uses) natural denominator, compared by cross multiplication. -/
structure Frac where
  num : Int
  den : Nat
deriving DecidableEq

/-- Strict order on fractions by cross multiplication. -/
def Frac.blt (a b : Frac) : Bool := a.num * (b.den : Int) < b.num * (a.den : Int)

/-- Semantic equality of fractions by cross multiplication. -/
def Frac.beq (a b : Frac) : Bool := a.num * (b.den : Int) == b.num * (a.den : Int)

/-- Model of f32::min as used by the code: the smaller argument. -/
def Frac.fmin (a b : Frac) : Frac := if Frac.blt b a then b else a

/-- Multiplication of fractions (model of f32 multiplication). -/
def Frac.fmul (a b : Frac) : Frac := ⟨a.num * b.num, a.den * b.den⟩

/-- Nonnegativity of a fraction with a positive denominator. -/
def Frac.nonneg (a : Frac) : Prop := 0 ≤ a.num ∧ 0 < a.den

/-- Shallow embedding of serde_json::Value. -/
inductive Json where
  | null : Json
  | bool (b : Bool) : Json
  | num (n : Int) : Json
  | fnum (f : Frac) : Json
  | str (s : String) : Json
  | arr (elems : List Json) : Json
  | obj (fields : List (String × Json)) : Json

/-- First value bound to a key in an object field list. -/
def lookupField : List (String × Json) → String → Option Json
  | [], _ => none
  | (k, v) :: rest, key => if k == key then some v else lookupField rest key

/-- Replace the value at a key, or append the binding (serde_json map insert). -/
def insertField : List (String × Json) → String → Json → List (String × Json)
  | [], key, v => [(key, v)]
  | (k, w) :: rest, key, v =>
    if k == key then (k, v) :: rest else (k, w) :: insertField rest key v

/-- Remove a key from an object field list (serde_json map remove). -/
def removeField : List (String × Json) → String → List (String × Json)
  | [], _ => []
  | (k, w) :: rest, key =>
    if k == key then removeField rest key else (k, w) :: removeField rest key

/-- Rust Value::get: some value when the receiver is an object holding the key. -/
def Json.get : Json → String → Option Json
  | .obj fields, key => lookupField fields key
  | _, _ => none

/-- Rust Value::index (the square-bracket operator): Null when absent. -/
def Json.idx (j : Json) (key : String) : Json := (j.get key).getD Json.null

/-- Rust Value::as_str. -/
def Json.asStr : Json → Option String
  | .str s => some s
  | _ => none

/-- Rust Value::as_array. -/
def Json.asArr : Json → Option (List Json)
  | .arr xs => some xs
  | _ => none

/-- Rust Value::as_object. -/
def Json.asObj : Json → Option (List (String × Json))
  | .obj fields => some fields
  | _ => none

/-- Whether the value is an object. -/
def Json.isObj : Json → Bool
  | .obj _ => true
  | _ => false

/-- Whether the value is a string (Rust Value::is_string). -/
def Json.isString : Json → Bool
  | .str _ => true
  | _ => false

/-- Model of Value::get_mut(key) followed by assignment: some updated object
exactly when the key is already present on an object. -/
def Json.setIfPresent (j : Json) (key : String) (v : Json) : Option Json :=
  match j with
  | .obj fields =>
    if (lookupField fields key).isSome then some (.obj (insertField fields key v))
    else none
  | _ => none

/-- Lowercasing of a string, character by character (model of str::to_lowercase
on the ASCII model names this code handles). -/
def lowerStr (s : String) : String := String.mk (s.toList.map Char.toLower)

/-- Whether the second string is a leading part of the first (str::starts_with). -/
def startsWithStr (s p : String) : Bool := s.toList.take p.toList.length == p.toList

/-- Whether a character occurs in a string (str::contains with a char pattern). -/
def containsChar (s : String) (c : Char) : Bool := s.toList.contains c

/-- Whether a pattern occurs contiguously in a character list. -/
def hasSubstrList (pat : List Char) : List Char → Bool
  | [] => pat.isEmpty
  | c :: rest => (List.take pat.length (c :: rest) == pat) || hasSubstrList pat rest

/-- Whether a pattern string occurs in a string (str::contains with a str pattern). -/
def hasSubstr (s pat : String) : Bool := hasSubstrList pat.toList s.toList

/-- Whitespace trimming from both ends (str::trim). -/
def trimStr (s : String) : String :=
  String.mk (((s.toList.dropWhile Char.isWhitespace).reverse.dropWhile
    Char.isWhitespace).reverse)

/-- Drop a leading part of given length (model of str::strip_prefix after a
positive starts_with test). -/
def dropHead (s p : String) : String := String.mk (s.toList.drop p.toList.length)

/-- src/utils/mod.rs map_model: passthrough for identifiers containing a
slash, anchored matching of Claude short names, otherwise unchanged. -/
def map_model (anthropic_model : String) : String :=
  if containsChar anthropic_model '/' then anthropic_model
  else
    let model_lower := lowerStr anthropic_model
    if model_lower == "haiku" ||
        (startsWithStr model_lower "claude-3" && hasSubstr model_lower "haiku") then
      "anthropic/claude-3.5-haiku"
    else if model_lower == "sonnet" ||
        (startsWithStr model_lower "claude-3" && hasSubstr model_lower "sonnet") then
      "anthropic/claude-sonnet-4"
    else if model_lower == "opus" ||
        (startsWithStr model_lower "claude-3" && hasSubstr model_lower "opus") then
      "anthropic/claude-opus-4"
    else anthropic_model

/-- src/models/mod.rs AnthropicRequest (temperature modelled as Frac). -/
structure AnthropicRequest where
  model : String
  messages : List Json
  system : Option Json
  temperature : Option Frac
  tools : Option (List Json)
  stream : Option Bool
  max_tokens : Option Nat

/-- src/models/mod.rs OpenAIRequest. -/
structure OpenAIRequest where
  model : String
  messages : List Json
  temperature : Option Frac
  tools : Option (List Json)
  stream : Option Bool
  max_tokens : Option Nat

/-- src/transform/mod.rs apply_model_specific_transforms: per-model parameter
policy keyed on the mapped model identifier. -/
def apply_model_specific_transforms (model : String) (temperature : Option Frac)
    (max_tokens : Option Nat) (tools : Option (List Json)) (stream : Option Bool) :
    Option Frac × Option Nat × Option (List Json) × Option Bool :=
  if startsWithStr model "moonshotai/" then
    let adjusted_temp := temperature.map (fun t => Frac.fmin (t.fmul ⟨6, 10⟩) ⟨1, 1⟩)
    let adjusted_tools : Option (List Json) := none
    let adjusted_max_tokens := match max_tokens with
      | some mt => some mt
      | none => some 16384
    let adjusted_stream := stream
    (adjusted_temp, adjusted_max_tokens, adjusted_tools, adjusted_stream)
  else if startsWithStr model "deepseek/" || hasSubstr model "deepseek" then
    let adjusted_temp := temperature.map (fun t => Frac.fmin (t.fmul ⟨8, 10⟩) ⟨1, 1⟩)
    (adjusted_temp, max_tokens, tools, stream)
  else if startsWithStr model "anthropic/" then
    (temperature, max_tokens, tools, stream)
  else if startsWithStr model "openai/" then
    (temperature, max_tokens, tools, stream)
  else if startsWithStr model "google/" then
    (temperature, max_tokens, tools, stream)
  else
    (temperature, max_tokens, tools, stream)

/-- The per-message body of the validation loop in validate_and_clean_request.
The two Rust unwrap calls are modelled as the error branches of an Except. -/
def clean_message (message : Json) : Except String Json :=
  match message.get "content" with
  | some content =>
    if content.isString then
      match content.asStr with
      | some content_str =>
        if (trimStr content_str).isEmpty then
          match message.setIfPresent "content" (Json.str " ") with
          | some updated => .ok updated
          | none => .error "unwrap on None: get_mut content"
        else .ok message
      | none => .ok message
    else .ok message
  | none =>
    match message.asObj with
    | some fields => .ok (Json.obj (insertField fields "content" (Json.str " ")))
    | none => .error "unwrap on None: as_object_mut"

/-- The message loop of validate_and_clean_request applied to every message. -/
def cleanMessages : List Json → Except String (List Json)
  | [] => .ok []
  | m :: rest =>
    match clean_message m with
    | .ok m2 =>
      match cleanMessages rest with
      | .ok rest2 => .ok (m2 :: rest2)
      | .error e => .error e
    | .error e => .error e

/-- The model-specific parameter validation of validate_and_clean_request. -/
def validate_params (r : OpenAIRequest) : OpenAIRequest :=
  if startsWithStr r.model "moonshotai/" then
    let r1 := match r.max_tokens with
      | some mt => if mt > 32768 then { r with max_tokens := some 16384 } else r
      | none => r
    match r1.temperature with
    | some temp =>
      if Frac.blt temp ⟨0, 1⟩ || Frac.blt ⟨2, 1⟩ temp then
        { r1 with temperature := some ⟨6, 10⟩ }
      else r1
    | none => r1
  else if startsWithStr r.model "deepseek/" then
    match r.temperature with
    | some temp =>
      if Frac.blt ⟨15, 10⟩ temp then { r with temperature := some ⟨1, 1⟩ } else r
    | none => r
  else
    match r.temperature with
    | some temp =>
      if Frac.blt temp ⟨0, 1⟩ || Frac.blt ⟨2, 1⟩ temp then
        { r with temperature := some ⟨1, 1⟩ }
      else r
    | none => r

/-- src/transform/mod.rs validate_and_clean_request: message content cleanup
followed by model-specific parameter validation. -/
def validate_and_clean_request (r : OpenAIRequest) : Except String OpenAIRequest :=
  match cleanMessages r.messages with
  | .ok msgs => .ok (validate_params { r with messages := msgs })
  | .error e => .error e

/-- The per-message conversion loop of anthropic_to_openai: copy the role,
flatten array content to the concatenation of its text parts, keep string
content, and substitute a single space for empty content. -/
def convert_message (message : Json) : Json :=
  let m0 : List (String × Json) := []
  let m1 := match message.get "role" with
    | some role => insertField m0 "role" role
    | none => m0
  let m2 := match message.get "content" with
    | some content =>
      match content.asArr with
      | some content_array =>
        let text_content := content_array.foldl (fun acc item =>
          match item.get "text" with
          | some t =>
            match t.asStr with
            | some text_str => acc ++ text_str
            | none => acc
          | none => acc) ""
        let text_content := if text_content.isEmpty then " " else text_content
        insertField m1 "content" (Json.str text_content)
      | none =>
        match content.asStr with
        | some content_str =>
          let final_content := if (trimStr content_str).isEmpty then " " else content_str
          insertField m1 "content" (Json.str final_content)
        | none => m1
    | none => insertField m1 "content" (Json.str " ")
  Json.obj m2

/-- The tool cleanup of anthropic_to_openai: strip cache_control from the tool
object and from its nested input_schema object. -/
def clean_tool (tool : Json) : Json :=
  match tool with
  | .obj fields =>
    let fields := removeField fields "cache_control"
    let fields := match lookupField fields "input_schema" with
      | some input_schema =>
        match input_schema.asObj with
        | some schema_fields =>
          insertField fields "input_schema" (Json.obj (removeField schema_fields "cache_control"))
        | none => fields
      | none => fields
    Json.obj fields
  | _ => tool

/-- src/transform/mod.rs anthropic_to_openai: system prepending, message
conversion, model mapping, tool cleanup, model-specific transforms, and the
final validation pass. -/
def anthropic_to_openai (req : AnthropicRequest) : Except String OpenAIRequest :=
  let sysMessages : List Json := match req.system with
    | some system => [Json.obj [("role", Json.str "system"), ("content", system)]]
    | none => []
  let messages := sysMessages ++ req.messages.map convert_message
  let max_tokens := req.max_tokens
  let mapped_model := map_model req.model
  let cleaned_tools := req.tools.map (fun tools => tools.map clean_tool)
  let adjusted := apply_model_specific_transforms mapped_model req.temperature
    max_tokens cleaned_tools req.stream
  let openai_request : OpenAIRequest :=
    { model := mapped_model
      messages := messages
      temperature := adjusted.1
      tools := adjusted.2.2.1
      stream := adjusted.2.2.2
      max_tokens := adjusted.2.1 }
  validate_and_clean_request openai_request

/-- C9 counterexample input: a moonshot-family request with a negative
temperature. -/
def c9_req : AnthropicRequest :=
  { model := "moonshotai/kimi-k2:free"
    messages := []
    system := none
    temperature := some ⟨-1, 1⟩
    tools := none
    stream := some true
    max_tokens := none }

/-- src/models/mod.rs AnthropicResponse. -/
structure AnthropicResponse where
  id : String
  response_type : String
  role : String
  content : List Json
  stop_reason : Option String
  stop_sequence : Option String
  model : String

/-- src/transform/mod.rs openai_to_anthropic: first choice only, text content
or tool calls or zero blocks, finish-reason mapping, timestamp message id
(the clock reading is an explicit argument), echoed model. -/
def openai_to_anthropic (response : Json) (model : String) (now_ms : Nat) :
    Except String AnthropicResponse :=
  let message_id := "msg_" ++ toString now_ms
  match (response.idx "choices").asArr with
  | none => .error "Response missing choices array"
  | some choices =>
    match choices with
    | [] => .error "Response has empty choices array"
    | choice :: _ =>
      let message := choice.idx "message"
      let content :=
        match (message.idx "content").asStr with
        | some content_str =>
          [Json.obj [("text", Json.str content_str), ("type", Json.str "text")]]
        | none =>
          match (message.idx "tool_calls").asArr with
          | some tool_calls =>
            tool_calls.map (fun tc => Json.obj
              [("type", Json.str "tool_use"),
               ("id", tc.idx "id"),
               ("name", (tc.idx "function").idx "name"),
               ("input", (tc.idx "function").idx "arguments")])
          | none => []
      let stop_reason :=
        match (choice.idx "finish_reason").asStr with
        | some s => if s == "tool_calls" then some "tool_use" else some "end_turn"
        | none => some "end_turn"
      .ok { id := message_id, response_type := "message", role := "assistant",
            content := content, stop_reason := stop_reason, stop_sequence := none,
            model := model }

/-- src/transform/mod.rs StreamingState with its initial value from
StreamingState::new (the HashMap is an association list). -/
structure StreamingState where
  content_block_index : Nat
  has_started_text_block : Bool
  is_tool_use : Bool
  current_tool_call_id : Option String
  tool_call_json_map : List (String × String)

/-- StreamingState::new. -/
def StreamingState.new : StreamingState :=
  { content_block_index := 0
    has_started_text_block := false
    is_tool_use := false
    current_tool_call_id := none
    tool_call_json_map := [] }

/-- HashMap::get on the accumulated-arguments map. -/
def lookupArgs : List (String × String) → String → Option String
  | [], _ => none
  | (k, v) :: rest, key => if k == key then some v else lookupArgs rest key

/-- HashMap::insert on the accumulated-arguments map. -/
def insertArgs : List (String × String) → String → String → List (String × String)
  | [], key, v => [(key, v)]
  | (k, w) :: rest, key, v =>
    if k == key then (k, v) :: rest else (k, w) :: insertArgs rest key v

/-- The Anthropic streaming events of src/models/mod.rs, embedded structurally
(message_start carries the generated id and echoed model, usage token counts
are carried inline, content blocks and deltas carry their flattened data). -/
inductive AnthropicEvent where
  | message_start (id : String) (model : String) (input_tokens output_tokens : Nat)
  | content_block_start (index : Nat) (block_type : String) (data : Json)
  | content_block_delta (index : Nat) (delta_type : String) (data : Json)
  | content_block_stop (index : Nat)
  | message_delta (stop_reason : String) (input_tokens output_tokens : Nat)
  | message_stop

/-- One iteration of the tool_calls loop of process_stream_delta: open a new
tool-use block when a fresh id appears (closing any open block first), then
append any arguments fragment and emit an input_json_delta. -/
def processToolCall (tool_call : Json) (state : StreamingState) :
    List AnthropicEvent × StreamingState :=
  let step1 : List AnthropicEvent × StreamingState :=
    match (tool_call.idx "id").asStr with
    | some tool_call_id =>
      if some tool_call_id != state.current_tool_call_id then
        let stopEvents :=
          if state.is_tool_use || state.has_started_text_block then
            [AnthropicEvent.content_block_stop state.content_block_index]
          else []
        let newState : StreamingState :=
          { state with
            is_tool_use := true
            has_started_text_block := false
            current_tool_call_id := some tool_call_id
            content_block_index := state.content_block_index + 1
            tool_call_json_map := insertArgs state.tool_call_json_map tool_call_id "" }
        let tool_block := Json.obj
          [("type", Json.str "tool_use"), ("id", Json.str tool_call_id),
           ("name", Json.str ((((tool_call.idx "function").idx "name").asStr).getD "")),
           ("input", Json.obj [])]
        (stopEvents ++
          [AnthropicEvent.content_block_start newState.content_block_index "tool_use" tool_block],
         newState)
      else ([], state)
    | none => ([], state)
  let state1 := step1.2
  let step2 : List AnthropicEvent × StreamingState :=
    match (((tool_call.idx "function").idx "arguments").asStr) with
    | some arguments =>
      match state1.current_tool_call_id with
      | some current_id =>
        let current_json := (lookupArgs state1.tool_call_json_map current_id).getD ""
        let state2 := { state1 with
          tool_call_json_map :=
            insertArgs state1.tool_call_json_map current_id (current_json ++ arguments) }
        ([AnthropicEvent.content_block_delta state2.content_block_index "input_json_delta"
            (Json.obj [("partial_json", Json.str arguments)])], state2)
      | none => ([], state1)
    | none => ([], state1)
  (step1.1 ++ step2.1, step2.2)

/-- The for loop over the tool_calls array of process_stream_delta. -/
def processToolCalls : List Json → StreamingState → List AnthropicEvent × StreamingState
  | [], state => ([], state)
  | tc :: rest, state =>
    let r := processToolCall tc state
    let r2 := processToolCalls rest r.2
    (r.1 ++ r2.1, r2.2)

/-- src/transform/mod.rs process_stream_delta: the tool-call branch takes
priority; otherwise a text delta closes an open tool block, opens a text
block when needed, and emits a text_delta. -/
def process_stream_delta (delta : Json) (state : StreamingState) :
    List AnthropicEvent × StreamingState :=
  match (delta.idx "tool_calls").asArr with
  | some tool_calls => processToolCalls tool_calls state
  | none =>
    match (delta.idx "content").asStr with
    | some content =>
      let step1 : List AnthropicEvent × StreamingState :=
        if state.is_tool_use then
          ([AnthropicEvent.content_block_stop state.content_block_index],
           { state with
             is_tool_use := false
             current_tool_call_id := none
             content_block_index := state.content_block_index + 1 })
        else ([], state)
      let state1 := step1.2
      let step2 : List AnthropicEvent × StreamingState :=
        if !state1.has_started_text_block then
          ([AnthropicEvent.content_block_start state1.content_block_index "text"
              (Json.obj [("type", Json.str "text"), ("text", Json.str "")])],
           { state1 with has_started_text_block := true })
        else ([], state1)
      let state2 := step2.2
      (step1.1 ++ step2.1 ++
        [AnthropicEvent.content_block_delta state2.content_block_index "text_delta"
          (Json.obj [("text", Json.str content)])], state2)
    | none => ([], state)

/-- The inner line loop over one chunk's complete lines in
format_streaming_response: only trimmed lines starting with the data marker
are interpreted; a [DONE] payload breaks out of this loop (remaining lines of
the same chunk are ignored); a line whose payload the JSON parser rejects is
skipped; otherwise the first choice's delta is processed. -/
def processChunkLines (parse : String → Option Json) :
    List String → StreamingState → List AnthropicEvent × StreamingState
  | [], state => ([], state)
  | line :: rest, state =>
    if startsWithStr (trimStr line) "data: " then
      let data := dropHead (trimStr line) "data: "
      if data == "[DONE]" then ([], state)
      else
        match parse data with
        | some parsed =>
          match (parsed.idx "choices").asArr with
          | some choices =>
            match choices.head? with
            | some choice =>
              match choice.get "delta" with
              | some delta =>
                let r := process_stream_delta delta state
                let r2 := processChunkLines parse rest r.2
                (r.1 ++ r2.1, r2.2)
              | none => processChunkLines parse rest state
            | none => processChunkLines parse rest state
          | none => processChunkLines parse rest state
        | none => processChunkLines parse rest state
    else processChunkLines parse rest state

/-- One received chunk in format_streaming_response: append to the carried
buffer, split on newlines, process every complete line, and keep the final
(possibly incomplete) line as the new buffer. -/
def processChunk (parse : String → Option Json) (buffer : String)
    (state : StreamingState) (chunk : String) :
    String × StreamingState × List AnthropicEvent :=
  let buffer := buffer ++ chunk
  let lines := (buffer.toList.splitOn '\n').map String.mk
  let new_buffer := (lines.getLast?).getD ""
  let complete := lines.dropLast
  let r := processChunkLines parse complete state
  (new_buffer, r.2, r.1)

/-- The chunk loop of format_streaming_response over the received chunks. -/
def processChunksLoop (parse : String → Option Json) :
    List String → String → StreamingState → List AnthropicEvent × StreamingState
  | [], _, state => ([], state)
  | chunk :: rest, buffer, state =>
    let r := processChunk parse buffer state chunk
    let r2 := processChunksLoop parse rest r.1 r.2.1
    (r.2.2 ++ r2.1, r2.2)

/-- src/transform/mod.rs format_streaming_response: the message_start event,
the chunk loop, the closing content_block_stop for a still-open block, the
message_delta with the mapped stop reason, and message_stop.  The received
byte chunks are the successfully read chunks of the upstream stream (a
transport error truncates this list); the JSON parser is the parse oracle. -/
def format_streaming_response (parse : String → Option Json)
    (chunks : List String) (message_id : String) (model : String) :
    List AnthropicEvent :=
  let start := AnthropicEvent.message_start message_id model 1 1
  let loop := processChunksLoop parse chunks "" StreamingState.new
  let state := loop.2
  let events := loop.1
  let closing :=
    if state.is_tool_use || state.has_started_text_block then
      [AnthropicEvent.content_block_stop state.content_block_index]
    else []
  let stop_reason := if state.is_tool_use then "tool_use" else "end_turn"
  [start] ++ events ++ closing ++
    [AnthropicEvent.message_delta stop_reason 100 150, AnthropicEvent.message_stop]

/-- The non-streaming success path of handle_messages (src/routes/proxy.rs):
transform the request, then transform the upstream body back, echoing the
caller's original model string. -/
def handle_messages_success (req : AnthropicRequest) (upstream : Json) (now_ms : Nat) :
    Except String AnthropicResponse :=
  match anthropic_to_openai req with
  | .ok _openai_request => openai_to_anthropic upstream req.model now_ms
  | .error e => .error e

/-- The streaming path of handle_messages: stream_openai_to_anthropic is
called with the caller's original model string. -/
def handle_messages_streaming (req : AnthropicRequest) (parse : String → Option Json)
    (chunks : List String) (message_id : String) : List AnthropicEvent :=
  format_streaming_response parse chunks message_id req.model

/-- C8 concrete request for the witness. -/
def c8_req : AnthropicRequest :=
  { model := "claude-3-sonnet-20240229"
    messages := [Json.obj [("role", Json.str "user"), ("content", Json.str "Hi")]]
    system := none
    temperature := none
    tools := none
    stream := some false
    max_tokens := none }

/-- C8 concrete upstream body for the witness. -/
def c8_upstream : Json :=
  Json.obj [("choices", Json.arr
    [Json.obj [("message", Json.obj [("content", Json.str "Hello"), ("role", Json.str "assistant")]),
               ("finish_reason", Json.str "stop")]])]

/-- C8 concrete result for the witness. -/
def c8_resp : AnthropicResponse :=
  { id := "msg_1700000000000"
    response_type := "message"
    role := "assistant"
    content := [Json.obj [("text", Json.str "Hello"), ("type", Json.str "text")]]
    stop_reason := some "end_turn"
    stop_sequence := none
    model := "claude-3-sonnet-20240229" }

/-- Iterated processing of a sequence of deltas through process_stream_delta,
threading the streaming state. -/
def runDeltas : List Json → StreamingState → List AnthropicEvent × StreamingState
  | [], state => ([], state)
  | d :: ds, state =>
    let r := process_stream_delta d state
    let r2 := runDeltas ds r.2
    (r.1 ++ r2.1, r2.2)

/-- An upstream delta carrying one tool-call fragment with an id and a
function name (as in the first chunk of a tool-call stream). -/
def toolDelta (id name : String) : Json :=
  Json.obj [("tool_calls", Json.arr
    [Json.obj [("id", Json.str id), ("function", Json.obj [("name", Json.str name)])]])]

/-- An upstream delta carrying a text fragment. -/
def textDelta (text : String) : Json :=
  Json.obj [("content", Json.str text)]

/-- The indices carried by the content_block_start events of an event list. -/
def blockStartIndices (events : List AnthropicEvent) : List Nat :=
  events.filterMap (fun e => match e with
    | .content_block_start i _ _ => some i
    | _ => none)

/-- An upstream chat-completion chunk whose first choice's delta carries the
given text fragment. -/
def textChunkJson (text : String) : Json :=
  Json.obj [("choices", Json.arr [Json.obj [("delta", textDelta text)]])]

/-- Concrete parse oracle for the C6 counterexample: one known well-formed
payload, everything else malformed. -/
def c6_parse : String → Option Json :=
  fun s => if s == "chunkHello" then some (textChunkJson "Hello") else none

/-- Instrumented processToolCall: identical control flow, with every emitted
event paired with the content_block_index of the streaming state at the
moment of its emission (before the push in the Rust code). -/
def processToolCallTr (tool_call : Json) (state : StreamingState) :
    List (Nat × AnthropicEvent) × StreamingState :=
  let step1 : List (Nat × AnthropicEvent) × StreamingState :=
    match (tool_call.idx "id").asStr with
    | some tool_call_id =>
      if some tool_call_id != state.current_tool_call_id then
        let stopEvents :=
          if state.is_tool_use || state.has_started_text_block then
            [(state.content_block_index,
              AnthropicEvent.content_block_stop state.content_block_index)]
          else []
        let newState : StreamingState :=
          { state with
            is_tool_use := true
            has_started_text_block := false
            current_tool_call_id := some tool_call_id
            content_block_index := state.content_block_index + 1
            tool_call_json_map := insertArgs state.tool_call_json_map tool_call_id "" }
        let tool_block := Json.obj
          [("type", Json.str "tool_use"), ("id", Json.str tool_call_id),
           ("name", Json.str ((((tool_call.idx "function").idx "name").asStr).getD "")),
           ("input", Json.obj [])]
        (stopEvents ++
          [(newState.content_block_index,
            AnthropicEvent.content_block_start newState.content_block_index "tool_use" tool_block)],
         newState)
      else ([], state)
    | none => ([], state)
  let state1 := step1.2
  let step2 : List (Nat × AnthropicEvent) × StreamingState :=
    match (((tool_call.idx "function").idx "arguments").asStr) with
    | some arguments =>
      match state1.current_tool_call_id with
      | some current_id =>
        let current_json := (lookupArgs state1.tool_call_json_map current_id).getD ""
        let state2 := { state1 with
          tool_call_json_map :=
            insertArgs state1.tool_call_json_map current_id (current_json ++ arguments) }
        ([(state2.content_block_index,
           AnthropicEvent.content_block_delta state2.content_block_index "input_json_delta"
             (Json.obj [("partial_json", Json.str arguments)]))], state2)
      | none => ([], state1)
    | none => ([], state1)
  (step1.1 ++ step2.1, step2.2)

/-- Instrumented loop over the tool_calls array. -/
def processToolCallsTr : List Json → StreamingState → List (Nat × AnthropicEvent) × StreamingState
  | [], state => ([], state)
  | tc :: rest, state =>
    let r := processToolCallTr tc state
    let r2 := processToolCallsTr rest r.2
    (r.1 ++ r2.1, r2.2)

/-- Instrumented process_stream_delta. -/
def process_stream_delta_tr (delta : Json) (state : StreamingState) :
    List (Nat × AnthropicEvent) × StreamingState :=
  match (delta.idx "tool_calls").asArr with
  | some tool_calls => processToolCallsTr tool_calls state
  | none =>
    match (delta.idx "content").asStr with
    | some content =>
      let step1 : List (Nat × AnthropicEvent) × StreamingState :=
        if state.is_tool_use then
          ([(state.content_block_index,
             AnthropicEvent.content_block_stop state.content_block_index)],
           { state with
             is_tool_use := false
             current_tool_call_id := none
             content_block_index := state.content_block_index + 1 })
        else ([], state)
      let state1 := step1.2
      let step2 : List (Nat × AnthropicEvent) × StreamingState :=
        if !state1.has_started_text_block then
          ([(state1.content_block_index,
             AnthropicEvent.content_block_start state1.content_block_index "text"
               (Json.obj [("type", Json.str "text"), ("text", Json.str "")]))],
           { state1 with has_started_text_block := true })
        else ([], state1)
      let state2 := step2.2
      (step1.1 ++ step2.1 ++
        [(state2.content_block_index,
          AnthropicEvent.content_block_delta state2.content_block_index "text_delta"
            (Json.obj [("text", Json.str content)]))], state2)
    | none => ([], state)

/-- Instrumented runDeltas. -/
def runDeltasTr : List Json → StreamingState → List (Nat × AnthropicEvent) × StreamingState
  | [], state => ([], state)
  | d :: ds, state =>
    let r := process_stream_delta_tr d state
    let r2 := runDeltasTr ds r.2
    (r.1 ++ r2.1, r2.2)

/-- A traced event carries, in its own index field, the state index recorded
at its emission point (trivial for events without an index field). -/
def indexOk : Nat × AnthropicEvent → Prop
  | (i, AnthropicEvent.content_block_start j _ _) => j = i
  | (i, AnthropicEvent.content_block_delta j _ _) => j = i
  | (i, AnthropicEvent.content_block_stop j) => j = i
  | _ => True

/-- The state invariant of C10: a text block and a tool block are never
recorded as simultaneously open. -/
def stateInv (s : StreamingState) : Prop :=
  ¬(s.has_started_text_block = true ∧ s.is_tool_use = true)

/-- Rust Value::is_array. -/
def Json.isArr : Json → Bool
  | .arr _ => true
  | _ => false

/-- Value::get(key) followed by as_str (the and_then pattern of the error
transcoder). -/
def getStrField (j : Json) (k : String) : Option String := (j.get k).bind Json.asStr

/-- The numbered troubleshooting list (enumerate with 1-based indices). -/
def numberSuggestions : Nat → List String → String
  | _, [] => ""
  | i, s :: rest => toString i ++ ". " ++ s ++ "\n" ++ numberSuggestions (i + 1) rest

/-- The status-keyed error-type tag of the Anthropic error envelope. -/
def anthropic_error_type (status_code : Nat) : String :=
  if status_code == 400 then "invalid_request_error"
  else if status_code == 401 then "authentication_error"
  else if status_code == 403 then "permission_error"
  else if status_code == 404 then "not_found_error"
  else if status_code == 429 then "rate_limit_error"
  else if 500 ≤ status_code ∧ status_code ≤ 599 then "api_error"
  else "api_error"

/-- The status-keyed troubleshooting suggestions of the error transcoder. -/
def errorSuggestions (status_code : Nat) (request : AnthropicRequest) : List String :=
  if status_code == 400 then
    ["Check your request parameters and format",
     "Verify the model name is correct for OpenRouter",
     "Ensure message content is properly formatted"] ++
    (match request.max_tokens with
     | some mt => if mt > 32000 then
         ["Try reducing max_tokens (some models have lower limits)"] else []
     | none => [])
  else if status_code == 401 then
    ["Verify your OpenRouter API key is correct",
     "Check if your API key has necessary permissions",
     "Ensure ANTHROPIC_API_KEY environment variable is set"]
  else if status_code == 403 then
    ["Your API key doesn\x27t have access to this model",
     "Check your OpenRouter account permissions",
     "Verify the model is available in your OpenRouter plan"]
  else if status_code == 404 then
    ["The specified model was not found",
     "Check available models at https://openrouter.ai/models",
     "Verify the model name format (e.g., \x27anthropic/claude-3.5-sonnet\x27)"]
  else if status_code == 429 then
    ["You\x27ve exceeded the rate limit",
     "Wait before making another request",
     "Consider upgrading your OpenRouter plan"]
  else if 500 ≤ status_code ∧ status_code ≤ 599 then
    ["OpenRouter is experiencing server issues",
     "Try again in a few moments",
     "Check OpenRouter status page for outages"]
  else
    ["Check OpenRouter documentation for this error",
     "Verify your request format matches OpenRouter API spec"]

/-- src/routes/proxy.rs transform_openrouter_error.  The serde JSON parser
and the two serde serializers (Display and to_string_pretty) are external
library functions and are taken as oracle arguments; the wall-clock seconds
reading is an explicit argument.  Everything else mirrors the Rust function:
the request-context header, the parsed-error or raw-body middle, the
suggestions and debugging blocks, the status-keyed error type, and the
diagnostic fields appended to the error object. -/
def transform_openrouter_error (parse : String → Option Json)
    (displayJson prettyJson : Json → String) (error_text : String)
    (status_code : Nat) (request : AnthropicRequest) (now_secs : Nat) : Json :=
  let header :=
    "OpenRouter API Error (HTTP " ++ toString status_code ++ ")\n" ++
    "Request Model: " ++ request.model ++ "\n" ++
    "Message Count: " ++ toString request.messages.length ++ "\n" ++
    (match request.max_tokens with
     | some mt => "Max Tokens: " ++ toString mt ++ "\n"
     | none => "") ++
    (match request.temperature with
     | some t => "Temperature: " ++ toString t.num ++ "/" ++ toString t.den ++ "\n"
     | none => "") ++
    (match request.stream with
     | some b => "Streaming: " ++ (if b then "true" else "false") ++ "\n"
     | none => "") ++
    (if request.tools.isSome then "Tools: Enabled\n" else "") ++
    "\n"
  let parsedPart :=
    match parse error_text with
    | some openrouter_error =>
      (match openrouter_error.get "error" with
       | some error_obj =>
         (match getStrField error_obj "message" with
          | some message => "Error Details: " ++ message ++ "\n"
          | none => "") ++
         (match error_obj.get "code" with
          | some code => "Error Code: " ++ displayJson code ++ "\n"
          | none => "") ++
         (match getStrField error_obj "param" with
          | some param => "Invalid Parameter: \x27" ++ param ++ "\x27\n"
          | none => "") ++
         (match error_obj.get "details" with
          | some details =>
            (match details.asStr with
             | some details_str => "Additional Details: " ++ details_str ++ "\n"
             | none =>
               if details.isObj || details.isArr then
                 "Validation Details: " ++ prettyJson details ++ "\n"
               else "")
          | none => "") ++
         (match getStrField error_obj "model" with
          | some m => "Model Context: " ++ m ++ "\n"
          | none => "")
       | none => "") ++
      (match getStrField openrouter_error "user_id" with
       | some user_id => "User ID: " ++ user_id ++ "\n"
       | none => "") ++
      (match getStrField openrouter_error "request_id" with
       | some request_id => "Request ID: " ++ request_id ++ "\n"
       | none => "") ++
      "\nOriginal OpenRouter Response:\n" ++ prettyJson openrouter_error ++ "\n"
    | none => "Raw Error Response: " ++ error_text ++ "\n"
  let error_code : Option Json :=
    match parse error_text with
    | some openrouter_error =>
      (openrouter_error.get "error").bind (fun error_obj => error_obj.get "code")
    | none => none
  let param_info : Option String :=
    match parse error_text with
    | some openrouter_error =>
      (openrouter_error.get "error").bind (fun error_obj => getStrField error_obj "param")
    | none => none
  let suggestions := errorSuggestions status_code request
  let suggestionsPart :=
    if suggestions.isEmpty then ""
    else "\nTroubleshooting Suggestions:\n" ++ numberSuggestions 1 suggestions
  let debugPart :=
    "\nDebugging Information:\n" ++
    "- CCR Proxy: https://ccr.duyet.net\n" ++
    "- OpenRouter Dashboard: https://openrouter.ai/activity\n" ++
    "- Request Time: " ++ toString now_secs ++ "\n"
  let comprehensive_message := header ++ parsedPart ++ suggestionsPart ++ debugPart
  let request_context := Json.obj
    [("model", Json.str request.model),
     ("messages_count", Json.num request.messages.length),
     ("max_tokens", match request.max_tokens with
        | some mt => Json.num mt
        | none => Json.null),
     ("temperature", match request.temperature with
        | some t => Json.fnum t
        | none => Json.null),
     ("stream", match request.stream with
        | some b => Json.bool b
        | none => Json.null),
     ("has_tools", Json.bool request.tools.isSome),
     ("has_system", Json.bool request.system.isSome)]
  Json.obj
    [("type", Json.str "error"),
     ("error", Json.obj
       ([("type", Json.str (anthropic_error_type status_code)),
         ("message", Json.str comprehensive_message)] ++
        (match error_code with
         | some code => [("code", code)]
         | none => []) ++
        (match param_info with
         | some param => [("param", Json.str param)]
         | none => []) ++
        [("request_context", request_context)]))]

/-- The concrete request of the C4 counterexample. -/
def c4_request : AnthropicRequest :=
  { model := "claude-3-haiku-20240307"
    messages := []
    system := none
    temperature := none
    tools := none
    stream := none
    max_tokens := none }

/-- A string equal to one of the fixed mapped identifiers contains a slash. -/
theorem ne_haiku_id_of_no_slash {s : String} (hs : containsChar s '/' = false) :
    s ≠ "anthropic/claude-3.5-haiku" := by
  intro h; subst h; exact absurd hs (by decide)

theorem ne_sonnet_id_of_no_slash {s : String} (hs : containsChar s '/' = false) :
    s ≠ "anthropic/claude-sonnet-4" := by
  intro h; subst h; exact absurd hs (by decide)

theorem ne_opus_id_of_no_slash {s : String} (hs : containsChar s '/' = false) :
    s ≠ "anthropic/claude-opus-4" := by
  intro h; subst h; exact absurd hs (by decide)

/-- C3 counterexample: the input "my-haiku-model" contains "haiku" and has no
slash, yet map_model does not send it to the fixed small-model identifier —
matching in the code is anchored, not substring-based. -/
theorem c3_counterexample :
    hasSubstr (lowerStr "my-haiku-model") "haiku" = true ∧
    containsChar "my-haiku-model" '/' = false ∧
    map_model "my-haiku-model" ≠ "anthropic/claude-3.5-haiku" ∧
    map_model "my-haiku-model" = "my-haiku-model" := by
  refine ⟨by decide, by decide, by decide, by decide⟩

/-- C3 (amended): for inputs without a slash, map_model maps to the fixed
small-model identifier exactly when the lowercase form equals "haiku" or
starts with "claude-3" and contains "haiku"; likewise for "sonnet" and
"opus" (in that precedence order); otherwise the input passes through
unchanged.  In particular mere substring occurrence does not trigger
mapping. -/
theorem c3_map_model_anchored (s : String) (hs : containsChar s '/' = false) :
    (map_model s = "anthropic/claude-3.5-haiku" ↔
      (lowerStr s == "haiku" ||
        (startsWithStr (lowerStr s) "claude-3" && hasSubstr (lowerStr s) "haiku")) = true) ∧
    (map_model s = "anthropic/claude-sonnet-4" ↔
      ((lowerStr s == "haiku" ||
        (startsWithStr (lowerStr s) "claude-3" && hasSubstr (lowerStr s) "haiku")) = false ∧
       (lowerStr s == "sonnet" ||
        (startsWithStr (lowerStr s) "claude-3" && hasSubstr (lowerStr s) "sonnet")) = true)) ∧
    (map_model s = "anthropic/claude-opus-4" ↔
      ((lowerStr s == "haiku" ||
        (startsWithStr (lowerStr s) "claude-3" && hasSubstr (lowerStr s) "haiku")) = false ∧
       (lowerStr s == "sonnet" ||
        (startsWithStr (lowerStr s) "claude-3" && hasSubstr (lowerStr s) "sonnet")) = false ∧
       (lowerStr s == "opus" ||
        (startsWithStr (lowerStr s) "claude-3" && hasSubstr (lowerStr s) "opus")) = true)) ∧
    (((lowerStr s == "haiku" ||
        (startsWithStr (lowerStr s) "claude-3" && hasSubstr (lowerStr s) "haiku")) = false ∧
      (lowerStr s == "sonnet" ||
        (startsWithStr (lowerStr s) "claude-3" && hasSubstr (lowerStr s) "sonnet")) = false ∧
      (lowerStr s == "opus" ||
        (startsWithStr (lowerStr s) "claude-3" && hasSubstr (lowerStr s) "opus")) = false) →
      map_model s = s) := by
  have hne1 := ne_haiku_id_of_no_slash hs
  have hne2 := ne_sonnet_id_of_no_slash hs
  have hne3 := ne_opus_id_of_no_slash hs
  unfold map_model
  rw [hs]
  simp only [Bool.false_eq_true, if_false]
  rcases hH : (lowerStr s == "haiku" ||
      (startsWithStr (lowerStr s) "claude-3" && hasSubstr (lowerStr s) "haiku")) with _ | _
  · rcases hS : (lowerStr s == "sonnet" ||
        (startsWithStr (lowerStr s) "claude-3" && hasSubstr (lowerStr s) "sonnet")) with _ | _
    · rcases hO : (lowerStr s == "opus" ||
          (startsWithStr (lowerStr s) "claude-3" && hasSubstr (lowerStr s) "opus")) with _ | _
      · simp_all
      · simp_all
    · simp_all
  · simp_all

/-- C3 witness instance. -/
theorem c3_map_model_anchored_witness :
    map_model "claude-3-haiku-20240307" = "anthropic/claude-3.5-haiku" :=
  (c3_map_model_anchored "claude-3-haiku-20240307" (by decide)).1.mpr (by decide)

/-- convert_message always builds a JSON object. -/
theorem convert_message_isObj (m : Json) : (convert_message m).isObj = true := rfl

/-- clean_message succeeds on every JSON object: the get_mut unwrap fires only
when the content key was just found present, and the as_object_mut unwrap
only on values built as objects. -/
theorem clean_message_ok_of_isObj (m : Json) (h : m.isObj = true) :
    ∃ m2, clean_message m = Except.ok m2 := by
  cases m with
  | obj fields =>
    unfold clean_message
    simp only [Json.get]
    cases hl : lookupField fields "content" with
    | none => exact ⟨_, rfl⟩
    | some content =>
      cases content with
      | str s =>
        simp only [Json.isString, Json.asStr, if_true]
        by_cases he : (trimStr s).isEmpty = true
        · simp only [he, if_true, Json.setIfPresent, hl, Option.isSome_some, if_true]
          exact ⟨_, rfl⟩
        · simp only [Bool.not_eq_true] at he
          simp only [he, Bool.false_eq_true, if_false]
          exact ⟨_, rfl⟩
      | null => exact ⟨_, rfl⟩
      | bool b => exact ⟨_, rfl⟩
      | num n => exact ⟨_, rfl⟩
      | fnum f => exact ⟨_, rfl⟩
      | arr xs => exact ⟨_, rfl⟩
      | obj f2 => exact ⟨_, rfl⟩
  | null => exact Bool.noConfusion h
  | bool b => exact Bool.noConfusion h
  | num n => exact Bool.noConfusion h
  | fnum f => exact Bool.noConfusion h
  | str s => exact Bool.noConfusion h
  | arr xs => exact Bool.noConfusion h

/-- The validation loop succeeds on any list of JSON objects. -/
theorem cleanMessages_ok (ms : List Json) (h : ∀ m ∈ ms, m.isObj = true) :
    ∃ ms2, cleanMessages ms = Except.ok ms2 := by
  induction ms with
  | nil => exact ⟨[], rfl⟩
  | cons m rest ih =>
    obtain ⟨m2, hm2⟩ := clean_message_ok_of_isObj m (h m (List.mem_cons_self m rest))
    obtain ⟨rest2, hrest⟩ := ih (fun x hx => h x (List.mem_cons_of_mem m hx))
    exact ⟨m2 :: rest2, by simp [cleanMessages, hm2, hrest]⟩

/-- Every message handed to validate_and_clean_request by anthropic_to_openai
is a JSON object. -/
theorem anthropic_messages_are_objects (req : AnthropicRequest) :
    ∀ m ∈ (match req.system with
      | some system => [Json.obj [("role", Json.str "system"), ("content", system)]]
      | none => []) ++ req.messages.map convert_message, m.isObj = true := by
  intro m hm
  rcases List.mem_append.mp hm with h | h
  · cases hsys : req.system with
    | some sv =>
      rw [hsys] at h
      simp only [List.mem_singleton] at h
      subst h
      rfl
    | none =>
      rw [hsys] at h
      simp at h
  · obtain ⟨a, _, rfl⟩ := List.mem_map.mp h
    rfl

/-- C2: the request transcoder is total — anthropic_to_openai returns Ok on
every syntactically valid SourceRequest, and in particular the unwrap calls
inside validate_and_clean_request are never reached with None. -/
theorem c2_anthropic_to_openai_total (req : AnthropicRequest) :
    ∃ out, anthropic_to_openai req = Except.ok out := by
  unfold anthropic_to_openai validate_and_clean_request
  obtain ⟨ms2, hms⟩ := cleanMessages_ok _ (anthropic_messages_are_objects req)
  simp only [hms]
  exact ⟨_, rfl⟩

/-- C2 witness instance. -/
theorem c2_anthropic_to_openai_total_witness :
    ∃ out, anthropic_to_openai
      { model := "claude-3-haiku-20240307"
        messages := [Json.obj [("role", Json.str "user"), ("content", Json.str "Hi")]]
        system := none
        temperature := none
        tools := none
        stream := some false
        max_tokens := none } = Except.ok out :=
  c2_anthropic_to_openai_total _

/-- validate_params only ever rewrites temperature and max_tokens. -/
theorem validate_params_fields (r : OpenAIRequest) :
    (validate_params r).tools = r.tools ∧ (validate_params r).stream = r.stream ∧
    (validate_params r).model = r.model ∧ (validate_params r).messages = r.messages := by
  unfold validate_params
  by_cases h1 : startsWithStr r.model "moonshotai/" = true
  · rw [if_pos h1]
    cases hmt : r.max_tokens with
    | none =>
      try dsimp only
      cases htemp : r.temperature with
      | none => exact ⟨rfl, rfl, rfl, rfl⟩
      | some t => try dsimp only
                      split_ifs <;> exact ⟨rfl, rfl, rfl, rfl⟩
    | some mt =>
      try dsimp only
      split_ifs with hgt <;> (try dsimp only) <;>
        [(cases htemp : r.temperature with
          | none => exact ⟨rfl, rfl, rfl, rfl⟩
          | some t => try dsimp only
                      split_ifs <;> exact ⟨rfl, rfl, rfl, rfl⟩);
         (cases htemp : r.temperature with
          | none => exact ⟨rfl, rfl, rfl, rfl⟩
          | some t => try dsimp only
                      split_ifs <;> exact ⟨rfl, rfl, rfl, rfl⟩)]
  · rw [if_neg h1]
    by_cases h2 : startsWithStr r.model "deepseek/" = true
    · rw [if_pos h2]
      cases htemp : r.temperature with
      | none => exact ⟨rfl, rfl, rfl, rfl⟩
      | some t => try dsimp only
                      split_ifs <;> exact ⟨rfl, rfl, rfl, rfl⟩
    · rw [if_neg h2]
      cases htemp : r.temperature with
      | none => exact ⟨rfl, rfl, rfl, rfl⟩
      | some t => try dsimp only
                      split_ifs <;> exact ⟨rfl, rfl, rfl, rfl⟩

/-- Temperature component of validate_params in the moonshot branch. -/
theorem validate_params_moonshot_temperature (r : OpenAIRequest)
    (h : startsWithStr r.model "moonshotai/" = true) :
    (validate_params r).temperature =
      match r.temperature with
      | some temp =>
        if Frac.blt temp ⟨0, 1⟩ || Frac.blt ⟨2, 1⟩ temp then some ⟨6, 10⟩ else some temp
      | none => none := by
  simp only [validate_params, if_pos h]
  cases hmt : r.max_tokens with
  | none =>
    simp only [hmt]
    cases htemp : r.temperature with
    | none => simp [htemp]
    | some t => simp only [htemp]; split_ifs <;> simp [htemp]
  | some mt =>
    simp only [hmt]
    split_ifs with hgt <;>
      [(cases htemp : r.temperature with
        | none => simp [htemp]
        | some t => simp only [htemp]; split_ifs <;> simp [htemp]);
       (cases htemp : r.temperature with
        | none => simp [htemp]
        | some t => simp only [htemp]; split_ifs <;> simp [htemp])]

/-- Max-tokens component of validate_params in the moonshot branch. -/
theorem validate_params_moonshot_max_tokens (r : OpenAIRequest)
    (h : startsWithStr r.model "moonshotai/" = true) :
    (validate_params r).max_tokens =
      match r.max_tokens with
      | some mt => if mt > 32768 then some 16384 else some mt
      | none => none := by
  simp only [validate_params, if_pos h]
  cases hmt : r.max_tokens with
  | some mt =>
    simp only [hmt]
    split_ifs with hgt <;>
      [(cases htemp : r.temperature with
        | none => simp [htemp, hmt]
        | some t => simp only [htemp]; split_ifs <;> simp [htemp, hmt]);
       (cases htemp : r.temperature with
        | none => simp [htemp, hmt]
        | some t => simp only [htemp]; split_ifs <;> simp [htemp, hmt])]
  | none =>
    simp only [hmt]
    cases htemp : r.temperature with
    | none => simp [htemp, hmt]
    | some t => simp only [htemp]; split_ifs <;> simp [htemp, hmt]

/-- A temperature obtained by scaling a nonnegative input by 0.6 and taking
the minimum with 1 lies inside the validation range 0 to 2. -/
theorem scaled_temp_in_range (t : Frac) (h : 0 ≤ t.num) :
    Frac.blt (Frac.fmin (t.fmul ⟨6, 10⟩) ⟨1, 1⟩) ⟨0, 1⟩ = false ∧
    Frac.blt ⟨2, 1⟩ (Frac.fmin (t.fmul ⟨6, 10⟩) ⟨1, 1⟩) = false := by
  obtain ⟨n, d⟩ := t
  simp only [Frac.fmul, Frac.fmin, Frac.blt] at *
  split_ifs with hb
  · constructor <;> decide
  · simp only [decide_eq_true_eq, not_lt] at hb
    push_cast at hb
    constructor <;> simp only [decide_eq_false_iff_not, not_lt] <;> push_cast <;> nlinarith

/-- C9 counterexample: for the moonshot request with temperature -1, the
final validation pass resets the temperature to 0.6, so the produced
temperature is not the input scaled by 0.6 and clamped to at most 1 (which
would be -0.6). -/
theorem c9_counterexample :
    anthropic_to_openai c9_req = Except.ok
      { model := "moonshotai/kimi-k2:free"
        messages := []
        temperature := some ⟨6, 10⟩
        tools := none
        stream := some true
        max_tokens := some 16384 } ∧
    Frac.beq ⟨6, 10⟩ (Frac.fmin (Frac.fmul ⟨-1, 1⟩ ⟨6, 10⟩) ⟨1, 1⟩) = false :=
  ⟨rfl, by decide⟩

/-- C9 (amended): for every request whose mapped model is in the moonshot
family and whose temperature, when present, is nonnegative, the destination
request has tools disabled, max-output-tokens defaulted to 16384 when unset,
the streaming flag preserved, and the temperature scaled by 0.6 and clamped
to at most 1.  (A negative input temperature is instead reset to 0.6 by the
final validation pass, per the counterexample.) -/
theorem c9_moonshot_policy (req : AnthropicRequest)
    (hm : startsWithStr (map_model req.model) "moonshotai/" = true)
    (ht : ∀ t, req.temperature = some t → 0 ≤ t.num) :
    ∃ r, anthropic_to_openai req = Except.ok r ∧
      r.tools = none ∧
      r.stream = req.stream ∧
      (req.max_tokens = none → r.max_tokens = some 16384) ∧
      r.temperature = req.temperature.map (fun t => Frac.fmin (t.fmul ⟨6, 10⟩) ⟨1, 1⟩) := by
  simp only [anthropic_to_openai, validate_and_clean_request,
    apply_model_specific_transforms, hm, if_true]
  obtain ⟨ms2, hms⟩ := cleanMessages_ok _ (anthropic_messages_are_objects req)
  simp only [hms]
  refine ⟨_, rfl, ?_, ?_, ?_, ?_⟩
  · exact (validate_params_fields _).1
  · exact (validate_params_fields _).2.1
  · intro hnone
    rw [validate_params_moonshot_max_tokens _ hm]
    simp [hnone]
  · rw [validate_params_moonshot_temperature _ hm]
    cases htemp : req.temperature with
    | none => simp [htemp]
    | some t =>
      obtain ⟨h1, h2⟩ := scaled_temp_in_range t (ht t htemp)
      simp [htemp, h1, h2]

/-- C9 witness instance: a moonshot request with temperature 0.5. -/
theorem c9_moonshot_policy_witness :
    ∃ r, anthropic_to_openai
      { model := "moonshotai/kimi-k2:free"
        messages := []
        system := none
        temperature := some ⟨1, 2⟩
        tools := some [Json.obj [("type", Json.str "function")]]
        stream := some true
        max_tokens := none } = Except.ok r ∧
      r.tools = none ∧
      r.stream = some true ∧
      ((none : Option Nat) = none → r.max_tokens = some 16384) ∧
      r.temperature = (some (⟨1, 2⟩ : Frac)).map
        (fun t => Frac.fmin (t.fmul ⟨6, 10⟩) ⟨1, 1⟩) :=
  c9_moonshot_policy _ (by decide) (fun t h => by injection h with h2; subst h2; decide)

/-- C7: openai_to_anthropic fails exactly when the response lacks a non-empty
choices array; with at least one choice it returns Ok, and a first choice
with neither string content nor tool calls yields zero content blocks. -/
theorem c7_openai_to_anthropic_error_iff (response : Json) (model : String) (now_ms : Nat) :
    ((∃ r, openai_to_anthropic response model now_ms = Except.ok r) ↔
      (∃ choice rest, (response.idx "choices").asArr = some (choice :: rest))) ∧
    (∀ choice rest, (response.idx "choices").asArr = some (choice :: rest) →
      ((choice.idx "message").idx "content").asStr = none →
      ((choice.idx "message").idx "tool_calls").asArr = none →
      ∃ r, openai_to_anthropic response model now_ms = Except.ok r ∧ r.content = []) := by
  constructor
  · constructor
    · intro ⟨r, hr⟩
      unfold openai_to_anthropic at hr
      cases hch : (response.idx "choices").asArr with
      | none => rw [hch] at hr; exact Except.noConfusion hr
      | some choices =>
        rw [hch] at hr
        cases choices with
        | nil => exact Except.noConfusion hr
        | cons choice rest => exact ⟨choice, rest, rfl⟩
    · intro ⟨choice, rest, hch⟩
      unfold openai_to_anthropic
      rw [hch]
      exact ⟨_, rfl⟩
  · intro choice rest hch hcontent htc
    unfold openai_to_anthropic
    rw [hch]
    refine ⟨_, rfl, ?_⟩
    simp only [hcontent, htc]

/-- C7 witness instance: a single choice whose message has neither string
content nor tool calls. -/
theorem c7_openai_to_anthropic_error_iff_witness :
    ∃ r, openai_to_anthropic
      (Json.obj [("choices", Json.arr [Json.obj [("message", Json.obj [("content", Json.null)])]])])
      "claude-3-sonnet-20240229" 1700000000000 = Except.ok r ∧ r.content = [] :=
  (c7_openai_to_anthropic_error_iff _ "claude-3-sonnet-20240229" 1700000000000).2
    (Json.obj [("message", Json.obj [("content", Json.null)])]) [] rfl rfl rfl

/-- Helper: the model field of every Ok result of openai_to_anthropic is the
echoed model argument. -/
theorem openai_to_anthropic_model (response : Json) (model : String) (now_ms : Nat)
    (r : AnthropicResponse) (h : openai_to_anthropic response model now_ms = Except.ok r) :
    r.model = model := by
  unfold openai_to_anthropic at h
  cases hch : (response.idx "choices").asArr with
  | none => rw [hch] at h; exact Except.noConfusion h
  | some choices =>
    rw [hch] at h
    cases choices with
    | nil => exact Except.noConfusion h
    | cons choice rest =>
      injection h with h2
      subst h2
      rfl

/-- C8: every successful SourceResponse carries, character for character, the
caller's original model string (never the mapped identifier when the two
differ), and the streaming path's message_start event carries the same
original model string. -/
theorem c8_model_echoed (req : AnthropicRequest) (upstream : Json) (now_ms : Nat)
    (parse : String → Option Json) (chunks : List String) (message_id : String) :
    (∀ r, handle_messages_success req upstream now_ms = Except.ok r →
      r.model = req.model ∧
      (map_model req.model ≠ req.model → r.model ≠ map_model req.model)) ∧
    (handle_messages_streaming req parse chunks message_id).head? =
      some (AnthropicEvent.message_start message_id req.model 1 1) := by
  constructor
  · intro r hr
    unfold handle_messages_success at hr
    cases hao : anthropic_to_openai req with
    | error e => rw [hao] at hr; exact Except.noConfusion hr
    | ok oreq =>
      rw [hao] at hr
      have hm := openai_to_anthropic_model upstream req.model now_ms r hr
      exact ⟨hm, fun hne hcontra => hne (by rw [← hcontra]; exact hm)⟩
  · rfl

/-- C8 witness instance: the mapped identifier differs from the original and
the response still carries the original. -/
theorem c8_model_echoed_witness :
    c8_resp.model = c8_req.model ∧
    (map_model c8_req.model ≠ c8_req.model → c8_resp.model ≠ map_model c8_req.model) :=
  (c8_model_echoed c8_req c8_upstream 1700000000000 (fun _ => none) [] "msg_1700000000000").1
    c8_resp rfl

/-- C1 counterexample: from the initial state, a tool-call delta followed by a
text delta opens its two content blocks at indices 1 and 2, not 0 and 1 —
the tool branch increments the index before emitting content_block_start. -/
theorem c1_counterexample :
    blockStartIndices
      (runDeltas [toolDelta "call_1" "get_weather", textDelta "Hi"] StreamingState.new).1 =
      [1, 2] ∧
    blockStartIndices
      (runDeltas [toolDelta "call_1" "get_weather", textDelta "Hi"] StreamingState.new).1 ≠
      [0, 1] :=
  ⟨rfl, by decide⟩

/-- C1 (amended): from the initial state, a tool-call delta with a new id
produces exactly a content_block_start for the tool block at index 1, and a
following text delta produces exactly a content_block_stop at index 1, a
content_block_start for the text block at index 2, and the text
content_block_delta at index 2 — two distinct content blocks at indices 1
and 2 with a content_block_stop emitted between them. -/
theorem c1_tool_then_text (id name text : String) :
    (process_stream_delta (toolDelta id name) StreamingState.new).1 =
      [AnthropicEvent.content_block_start 1 "tool_use"
        (Json.obj [("type", Json.str "tool_use"), ("id", Json.str id),
                   ("name", Json.str name), ("input", Json.obj [])])] ∧
    (process_stream_delta (textDelta text)
        (process_stream_delta (toolDelta id name) StreamingState.new).2).1 =
      [AnthropicEvent.content_block_stop 1,
       AnthropicEvent.content_block_start 2 "text"
         (Json.obj [("type", Json.str "text"), ("text", Json.str "")]),
       AnthropicEvent.content_block_delta 2 "text_delta"
         (Json.obj [("text", Json.str text)])] :=
  ⟨rfl, rfl⟩

/-- C5: for a streaming session whose decoded chunks contain only the text
deltas "Hello" then " world", the emitted sequence is exactly message_start,
content_block_start (text, index 0), the two text deltas at index 0,
content_block_stop at index 0, message_delta with stop reason end_turn, and
message_stop — no other events. -/
theorem c5_text_only_stream (parse : String → Option Json) (message_id model : String)
    (h1 : parse "chunkHello" = some (textChunkJson "Hello"))
    (h2 : parse "chunkWorld" = some (textChunkJson " world")) :
    format_streaming_response parse ["data: chunkHello\n", "data: chunkWorld\n"]
      message_id model =
      [AnthropicEvent.message_start message_id model 1 1,
       AnthropicEvent.content_block_start 0 "text"
         (Json.obj [("type", Json.str "text"), ("text", Json.str "")]),
       AnthropicEvent.content_block_delta 0 "text_delta"
         (Json.obj [("text", Json.str "Hello")]),
       AnthropicEvent.content_block_delta 0 "text_delta"
         (Json.obj [("text", Json.str " world")]),
       AnthropicEvent.content_block_stop 0,
       AnthropicEvent.message_delta "end_turn" 100 150,
       AnthropicEvent.message_stop] := by
  have l1 : processChunkLines parse ["data: chunkHello"] StreamingState.new =
      ([AnthropicEvent.content_block_start 0 "text"
          (Json.obj [("type", Json.str "text"), ("text", Json.str "")]),
        AnthropicEvent.content_block_delta 0 "text_delta"
          (Json.obj [("text", Json.str "Hello")])],
       ⟨0, true, false, none, []⟩) := by
    simp +decide only [processChunkLines]
    rw [show dropHead (trimStr "data: chunkHello") "data: " = "chunkHello" from rfl, h1]
    rfl
  have l2 : processChunkLines parse ["data: chunkWorld"]
      (⟨0, true, false, none, []⟩ : StreamingState) =
      ([AnthropicEvent.content_block_delta 0 "text_delta"
          (Json.obj [("text", Json.str " world")])],
       ⟨0, true, false, none, []⟩) := by
    simp +decide only [processChunkLines]
    rw [show dropHead (trimStr "data: chunkWorld") "data: " = "chunkWorld" from rfl, h2]
    rfl
  have pc1 : processChunk parse "" StreamingState.new "data: chunkHello\n" =
      ("", (⟨0, true, false, none, []⟩ : StreamingState),
       [AnthropicEvent.content_block_start 0 "text"
          (Json.obj [("type", Json.str "text"), ("text", Json.str "")]),
        AnthropicEvent.content_block_delta 0 "text_delta"
          (Json.obj [("text", Json.str "Hello")])]) := by
    simp only [processChunk]
    rw [show ((("" ++ "data: chunkHello\n").toList.splitOn '\n').map String.mk) =
      ["data: chunkHello", ""] from rfl]
    rw [show (["data: chunkHello", ""] : List String).dropLast = ["data: chunkHello"] from rfl]
    rw [l1]
    rfl
  have pc2 : processChunk parse "" (⟨0, true, false, none, []⟩ : StreamingState)
      "data: chunkWorld\n" =
      ("", (⟨0, true, false, none, []⟩ : StreamingState),
       [AnthropicEvent.content_block_delta 0 "text_delta"
          (Json.obj [("text", Json.str " world")])]) := by
    simp only [processChunk]
    rw [show ((("" ++ "data: chunkWorld\n").toList.splitOn '\n').map String.mk) =
      ["data: chunkWorld", ""] from rfl]
    rw [show (["data: chunkWorld", ""] : List String).dropLast = ["data: chunkWorld"] from rfl]
    rw [l2]
    rfl
  have lp : processChunksLoop parse ["data: chunkHello\n", "data: chunkWorld\n"] ""
      StreamingState.new =
      ([AnthropicEvent.content_block_start 0 "text"
          (Json.obj [("type", Json.str "text"), ("text", Json.str "")]),
        AnthropicEvent.content_block_delta 0 "text_delta"
          (Json.obj [("text", Json.str "Hello")]),
        AnthropicEvent.content_block_delta 0 "text_delta"
          (Json.obj [("text", Json.str " world")])],
       ⟨0, true, false, none, []⟩) := by
    simp only [processChunksLoop]
    rw [pc1]
    rw [pc2]
    rfl
  simp only [format_streaming_response]
  rw [lp]
  rfl

/-- C5 witness instance with a concrete parse oracle. -/
theorem c5_text_only_stream_witness :
    format_streaming_response
      (fun s => if s == "chunkHello" then some (textChunkJson "Hello")
        else if s == "chunkWorld" then some (textChunkJson " world") else none)
      ["data: chunkHello\n", "data: chunkWorld\n"] "msg_1" "claude-3-sonnet-20240229" =
      [AnthropicEvent.message_start "msg_1" "claude-3-sonnet-20240229" 1 1,
       AnthropicEvent.content_block_start 0 "text"
         (Json.obj [("type", Json.str "text"), ("text", Json.str "")]),
       AnthropicEvent.content_block_delta 0 "text_delta"
         (Json.obj [("text", Json.str "Hello")]),
       AnthropicEvent.content_block_delta 0 "text_delta"
         (Json.obj [("text", Json.str " world")]),
       AnthropicEvent.content_block_stop 0,
       AnthropicEvent.message_delta "end_turn" 100 150,
       AnthropicEvent.message_stop] :=
  c5_text_only_stream _ "msg_1" "claude-3-sonnet-20240229" rfl rfl

/-- C6 counterexample: a [DONE] payload only breaks the line loop of the
chunk it arrives in.  With [DONE] alone the session emits no content events,
but a text delta arriving in a LATER chunk after [DONE] still contributes a
full text block — contradicting the claim that no delta on any later line of
a subsequently received chunk contributes any emitted event. -/
theorem c6_counterexample :
    format_streaming_response c6_parse ["data: [DONE]\n"] "msg_1" "m" =
      [AnthropicEvent.message_start "msg_1" "m" 1 1,
       AnthropicEvent.message_delta "end_turn" 100 150,
       AnthropicEvent.message_stop] ∧
    format_streaming_response c6_parse ["data: [DONE]\n", "data: chunkHello\n"] "msg_1" "m" =
      [AnthropicEvent.message_start "msg_1" "m" 1 1,
       AnthropicEvent.content_block_start 0 "text"
         (Json.obj [("type", Json.str "text"), ("text", Json.str "")]),
       AnthropicEvent.content_block_delta 0 "text_delta"
         (Json.obj [("text", Json.str "Hello")]),
       AnthropicEvent.content_block_stop 0,
       AnthropicEvent.message_delta "end_turn" 100 150,
       AnthropicEvent.message_stop] :=
  ⟨rfl, rfl⟩

/-- Step characterization of the line loop: processing one line either stops
the loop (a [DONE] payload) or contributes a fixed event list and state
change independent of the remaining lines. -/
theorem processChunkLines_cons_step (parse : String → Option Json) (line : String)
    (st : StreamingState) :
    (∀ rest, processChunkLines parse (line :: rest) st = ([], st)) ∨
    (∃ evs st2, ∀ rest, processChunkLines parse (line :: rest) st =
      (evs ++ (processChunkLines parse rest st2).1, (processChunkLines parse rest st2).2)) := by
  by_cases hstart : (startsWithStr (trimStr line) "data: ") = true
  · by_cases hdone : (dropHead (trimStr line) "data: " == "[DONE]") = true
    · left
      intro rest
      simp only [processChunkLines]
      rw [if_pos hstart, if_pos hdone]
    · right
      cases hp : parse (dropHead (trimStr line) "data: ") with
      | none =>
        refine ⟨[], st, fun rest => ?_⟩
        simp only [processChunkLines]
        rw [if_pos hstart, if_neg hdone, hp]
        simp
      | some parsed =>
        cases hc : (parsed.idx "choices").asArr with
        | none =>
          refine ⟨[], st, fun rest => ?_⟩
          simp only [processChunkLines]
          rw [if_pos hstart, if_neg hdone, hp]
          simp [hc]
        | some choices =>
          cases hh : choices.head? with
          | none =>
            refine ⟨[], st, fun rest => ?_⟩
            simp only [processChunkLines]
            rw [if_pos hstart, if_neg hdone, hp]
            simp [hc, hh]
          | some choice =>
            cases hdelta : choice.get "delta" with
            | none =>
              refine ⟨[], st, fun rest => ?_⟩
              simp only [processChunkLines]
              rw [if_pos hstart, if_neg hdone, hp]
              simp [hc, hh, hdelta]
            | some delta =>
              refine ⟨(process_stream_delta delta st).1,
                (process_stream_delta delta st).2, fun rest => ?_⟩
              simp only [processChunkLines]
              rw [if_pos hstart, if_neg hdone, hp]
              simp [hc, hh, hdelta]
  · right
    refine ⟨[], st, fun rest => ?_⟩
    simp only [processChunkLines]
    rw [if_neg hstart]
    simp

/-- C6 (amended): a [DONE] payload terminates processing of the remaining
complete lines of the SAME chunk only (deltas in subsequently received
chunks are still processed, per the counterexample), and a data line whose
payload the JSON parser rejects is silently skipped — the line loop
continues unchanged and never fails. -/
theorem c6_done_terminates_chunk_and_malformed_skipped :
    (∀ (parse : String → Option Json) (st : StreamingState) (pre post : List String),
      processChunkLines parse (pre ++ "data: [DONE]" :: post) st =
      processChunkLines parse (pre ++ ["data: [DONE]"]) st) ∧
    (∀ (parse : String → Option Json) (line : String) (rest : List String)
        (st : StreamingState),
      startsWithStr (trimStr line) "data: " = true →
      (dropHead (trimStr line) "data: " == "[DONE]") = false →
      parse (dropHead (trimStr line) "data: ") = none →
      processChunkLines parse (line :: rest) st = processChunkLines parse rest st) := by
  constructor
  · intro parse st pre post
    induction pre generalizing st with
    | nil => rfl
    | cons line pre ih =>
      rw [List.cons_append, List.cons_append]
      rcases processChunkLines_cons_step parse line st with hstop | ⟨evs, st2, hstep⟩
      · rw [hstop, hstop]
      · rw [hstep, hstep, ih st2]
  · intro parse line rest st hstart hdone hp
    simp only [processChunkLines]
    rw [if_pos hstart, if_neg (by simp [hdone]), hp]

/-- C6 witness instance: [DONE] followed by a line in the same chunk is
ignored, and a malformed payload is skipped. -/
theorem c6_done_terminates_chunk_and_malformed_skipped_witness :
    (processChunkLines c6_parse ([] ++ "data: [DONE]" :: ["data: chunkHello"])
        StreamingState.new =
      processChunkLines c6_parse ([] ++ ["data: [DONE]"]) StreamingState.new) ∧
    (processChunkLines c6_parse ["data: notjson"] StreamingState.new =
      processChunkLines c6_parse [] StreamingState.new) :=
  ⟨(c6_done_terminates_chunk_and_malformed_skipped).1 c6_parse StreamingState.new []
      ["data: chunkHello"],
   (c6_done_terminates_chunk_and_malformed_skipped).2 c6_parse "data: notjson" []
      StreamingState.new (by decide) (by decide) rfl⟩

/-- Erasing the instrumentation of processToolCallTr recovers processToolCall. -/
theorem processToolCallTr_erase (tc : Json) (st : StreamingState) :
    (processToolCallTr tc st).1.map Prod.snd = (processToolCall tc st).1 ∧
    (processToolCallTr tc st).2 = (processToolCall tc st).2 := by
  simp only [processToolCallTr, processToolCall]
  cases hid : (tc.idx "id").asStr with
  | none =>
    cases hargs : (((tc.idx "function").idx "arguments").asStr) with
    | none => simp
    | some args =>
      cases hcur : st.current_tool_call_id with
      | none => simp [hcur]
      | some cid => simp [hcur]
  | some tid =>
    by_cases hne : (some tid != st.current_tool_call_id) = true
    · cases hargs : (((tc.idx "function").idx "arguments").asStr) with
      | none =>
        by_cases hopen : (st.is_tool_use || st.has_started_text_block) = true <;>
          simp [hne, hopen]
      | some args =>
        by_cases hopen : (st.is_tool_use || st.has_started_text_block) = true <;>
          simp [hne, hopen]
    · rw [Bool.not_eq_true] at hne
      cases hcur : st.current_tool_call_id with
      | none => rw [hcur] at hne; simp at hne
      | some cid =>
        rw [hcur] at hne
        have htid : tid = cid := Option.some.inj (bne_eq_false_iff_eq.mp hne)
        subst htid
        cases hargs : (((tc.idx "function").idx "arguments").asStr) with
        | none => simp [hcur]
        | some args => simp [hcur]

/-- Erasing the instrumentation of the tool_calls loop. -/
theorem processToolCallsTr_erase (tcs : List Json) (st : StreamingState) :
    (processToolCallsTr tcs st).1.map Prod.snd = (processToolCalls tcs st).1 ∧
    (processToolCallsTr tcs st).2 = (processToolCalls tcs st).2 := by
  induction tcs generalizing st with
  | nil => exact ⟨rfl, rfl⟩
  | cons tc rest ih =>
    obtain ⟨h1, h2⟩ := processToolCallTr_erase tc st
    obtain ⟨h3, h4⟩ := ih (processToolCallTr tc st).2
    constructor
    · simp only [processToolCallsTr, processToolCalls, List.map_append]
      rw [h1, h3, h2]
    · simp only [processToolCallsTr, processToolCalls]
      rw [h4, h2]

/-- Erasing the instrumentation of process_stream_delta_tr. -/
theorem process_stream_delta_tr_erase (d : Json) (st : StreamingState) :
    (process_stream_delta_tr d st).1.map Prod.snd = (process_stream_delta d st).1 ∧
    (process_stream_delta_tr d st).2 = (process_stream_delta d st).2 := by
  simp only [process_stream_delta_tr, process_stream_delta]
  cases harr : (d.idx "tool_calls").asArr with
  | some tcs => exact processToolCallsTr_erase tcs st
  | none =>
    cases hc : (d.idx "content").asStr with
    | none => exact ⟨rfl, rfl⟩
    | some content =>
      by_cases htool : st.is_tool_use = true <;>
        by_cases htext : st.has_started_text_block = true <;>
        simp [htool, htext]

/-- Erasing the instrumentation of runDeltasTr. -/
theorem runDeltasTr_erase (ds : List Json) (st : StreamingState) :
    (runDeltasTr ds st).1.map Prod.snd = (runDeltas ds st).1 ∧
    (runDeltasTr ds st).2 = (runDeltas ds st).2 := by
  induction ds generalizing st with
  | nil => exact ⟨rfl, rfl⟩
  | cons d ds ih =>
    obtain ⟨h1, h2⟩ := process_stream_delta_tr_erase d st
    obtain ⟨h3, h4⟩ := ih (process_stream_delta_tr d st).2
    constructor
    · simp only [runDeltasTr, runDeltas, List.map_append]
      rw [h1, h3, h2]
    · simp only [runDeltasTr, runDeltas]
      rw [h4, h2]

/-- processToolCall preserves the no-two-open-blocks invariant. -/
theorem processToolCall_inv (tc : Json) (st : StreamingState) (h : stateInv st) :
    stateInv (processToolCall tc st).2 := by
  simp only [processToolCall, stateInv] at *
  cases hid : (tc.idx "id").asStr with
  | none =>
    cases hargs : (((tc.idx "function").idx "arguments").asStr) with
    | none => exact h
    | some args =>
      cases hcur : st.current_tool_call_id with
      | none => simpa using h
      | some cid => simpa using h
  | some tid =>
    by_cases hne : (some tid != st.current_tool_call_id) = true
    · cases hargs : (((tc.idx "function").idx "arguments").asStr) with
      | none => simp [hne]
      | some args => simp [hne]
    · rw [Bool.not_eq_true] at hne
      cases hcur : st.current_tool_call_id with
      | none => rw [hcur] at hne; simp at hne
      | some cid =>
        rw [hcur] at hne
        have htid : tid = cid := Option.some.inj (bne_eq_false_iff_eq.mp hne)
        subst htid
        cases hargs : (((tc.idx "function").idx "arguments").asStr) with
        | none => simpa [hcur] using h
        | some args => simpa [hcur] using h

/-- The tool_calls loop preserves the invariant. -/
theorem processToolCalls_inv (tcs : List Json) (st : StreamingState) (h : stateInv st) :
    stateInv (processToolCalls tcs st).2 := by
  induction tcs generalizing st with
  | nil => exact h
  | cons tc rest ih =>
    simp only [processToolCalls]
    exact ih _ (processToolCall_inv tc st h)

/-- process_stream_delta preserves the invariant. -/
theorem process_stream_delta_inv (d : Json) (st : StreamingState) (h : stateInv st) :
    stateInv (process_stream_delta d st).2 := by
  simp only [process_stream_delta]
  cases harr : (d.idx "tool_calls").asArr with
  | some tcs => exact processToolCalls_inv tcs st h
  | none =>
    cases hc : (d.idx "content").asStr with
    | none => exact h
    | some content =>
      simp only [stateInv] at *
      by_cases htool : st.is_tool_use = true <;>
        by_cases htext : st.has_started_text_block = true <;>
        simp [htool, htext]

/-- runDeltas preserves the invariant. -/
theorem runDeltas_inv (ds : List Json) (st : StreamingState) (h : stateInv st) :
    stateInv (runDeltas ds st).2 := by
  induction ds generalizing st with
  | nil => exact h
  | cons d ds ih =>
    simp only [runDeltas]
    exact ih _ (process_stream_delta_inv d st h)

/-- processToolCall never decreases the content-block index. -/
theorem processToolCall_mono (tc : Json) (st : StreamingState) :
    st.content_block_index ≤ (processToolCall tc st).2.content_block_index := by
  simp only [processToolCall]
  cases hid : (tc.idx "id").asStr with
  | none =>
    cases hargs : (((tc.idx "function").idx "arguments").asStr) with
    | none => exact Nat.le_refl _
    | some args =>
      cases hcur : st.current_tool_call_id with
      | none => simp
      | some cid => simp
  | some tid =>
    by_cases hne : (some tid != st.current_tool_call_id) = true
    · cases hargs : (((tc.idx "function").idx "arguments").asStr) with
      | none => simp [hne]
      | some args => simp [hne]
    · rw [Bool.not_eq_true] at hne
      cases hcur : st.current_tool_call_id with
      | none => rw [hcur] at hne; simp at hne
      | some cid =>
        rw [hcur] at hne
        have htid : tid = cid := Option.some.inj (bne_eq_false_iff_eq.mp hne)
        subst htid
        cases hargs : (((tc.idx "function").idx "arguments").asStr) with
        | none => simp [hcur]
        | some args => simp [hcur]

/-- The tool_calls loop never decreases the content-block index. -/
theorem processToolCalls_mono (tcs : List Json) (st : StreamingState) :
    st.content_block_index ≤ (processToolCalls tcs st).2.content_block_index := by
  induction tcs generalizing st with
  | nil => exact Nat.le_refl _
  | cons tc rest ih =>
    simp only [processToolCalls]
    exact Nat.le_trans (processToolCall_mono tc st) (ih _)

/-- process_stream_delta never decreases the content-block index. -/
theorem process_stream_delta_mono (d : Json) (st : StreamingState) :
    st.content_block_index ≤ (process_stream_delta d st).2.content_block_index := by
  simp only [process_stream_delta]
  cases harr : (d.idx "tool_calls").asArr with
  | some tcs => exact processToolCalls_mono tcs st
  | none =>
    cases hc : (d.idx "content").asStr with
    | none => exact Nat.le_refl _
    | some content =>
      by_cases htool : st.is_tool_use = true <;>
        by_cases htext : st.has_started_text_block = true <;>
        simp [htool, htext]

/-- runDeltas never decreases the content-block index. -/
theorem runDeltas_mono (ds : List Json) (st : StreamingState) :
    st.content_block_index ≤ (runDeltas ds st).2.content_block_index := by
  induction ds generalizing st with
  | nil => exact Nat.le_refl _
  | cons d ds ih =>
    simp only [runDeltas]
    exact Nat.le_trans (process_stream_delta_mono d st) (ih _)

/-- The final state of runDeltas over an appended list factors through the
intermediate state. -/
theorem runDeltas_append_state (xs ys : List Json) (st : StreamingState) :
    (runDeltas (xs ++ ys) st).2 = (runDeltas ys (runDeltas xs st).2).2 := by
  induction xs generalizing st with
  | nil => rfl
  | cons d ds ih =>
    simp only [List.cons_append, runDeltas]
    exact ih _

/-- Every event traced by processToolCallTr carries the emission-point index. -/
theorem processToolCallTr_indexOk (tc : Json) (st : StreamingState) :
    ∀ p ∈ (processToolCallTr tc st).1, indexOk p := by
  simp only [processToolCallTr]
  cases hid : (tc.idx "id").asStr with
  | none =>
    cases hargs : (((tc.idx "function").idx "arguments").asStr) with
    | none => simp
    | some args =>
      cases hcur : st.current_tool_call_id with
      | none => simp
      | some cid => simp [indexOk]
  | some tid =>
    by_cases hne : (some tid != st.current_tool_call_id) = true
    · by_cases hopen : (st.is_tool_use || st.has_started_text_block) = true <;>
        cases hargs : (((tc.idx "function").idx "arguments").asStr) <;>
        simp [hne, hopen, indexOk]
    · rw [Bool.not_eq_true] at hne
      cases hcur : st.current_tool_call_id with
      | none => rw [hcur] at hne; simp at hne
      | some cid =>
        rw [hcur] at hne
        have htid : tid = cid := Option.some.inj (bne_eq_false_iff_eq.mp hne)
        subst htid
        cases hargs : (((tc.idx "function").idx "arguments").asStr) with
        | none => simp [hcur]
        | some args => simp [hcur, indexOk]

/-- Every event traced by the tool_calls loop carries the emission-point index. -/
theorem processToolCallsTr_indexOk (tcs : List Json) (st : StreamingState) :
    ∀ p ∈ (processToolCallsTr tcs st).1, indexOk p := by
  induction tcs generalizing st with
  | nil => simp [processToolCallsTr]
  | cons tc rest ih =>
    intro p hp
    simp only [processToolCallsTr, List.mem_append] at hp
    rcases hp with hp | hp
    · exact processToolCallTr_indexOk tc st p hp
    · exact ih _ p hp

/-- Every event traced by process_stream_delta_tr carries the emission-point
index. -/
theorem process_stream_delta_tr_indexOk (d : Json) (st : StreamingState) :
    ∀ p ∈ (process_stream_delta_tr d st).1, indexOk p := by
  simp only [process_stream_delta_tr]
  cases harr : (d.idx "tool_calls").asArr with
  | some tcs => exact processToolCallsTr_indexOk tcs st
  | none =>
    cases hc : (d.idx "content").asStr with
    | none => simp
    | some content =>
      by_cases htool : st.is_tool_use = true <;>
        by_cases htext : st.has_started_text_block = true <;>
        simp [htool, htext, indexOk]

/-- Every event traced by runDeltasTr carries the emission-point index. -/
theorem runDeltasTr_indexOk (ds : List Json) (st : StreamingState) :
    ∀ p ∈ (runDeltasTr ds st).1, indexOk p := by
  induction ds generalizing st with
  | nil => simp [runDeltasTr]
  | cons d ds ih =>
    intro p hp
    simp only [runDeltasTr, List.mem_append] at hp
    rcases hp with hp | hp
    · exact process_stream_delta_tr_indexOk d st p hp
    · exact ih _ p hp

/-- C10: over every delta sequence processed from the initial StreamingState,
the two block flags are never both set, the content-block index never
decreases (the index after a prefix is at most the index after any
extension), and — via the instrumented run, whose erasure is the plain run —
every content_block_start, content_block_delta and content_block_stop event
carries the state's content_block_index current at its emission point. -/
theorem c10_streaming_state_invariant (ds extra : List Json) :
    stateInv (runDeltas ds StreamingState.new).2 ∧
    (runDeltas ds StreamingState.new).2.content_block_index ≤
      (runDeltas (ds ++ extra) StreamingState.new).2.content_block_index ∧
    (runDeltasTr ds StreamingState.new).1.map Prod.snd =
      (runDeltas ds StreamingState.new).1 ∧
    (∀ p ∈ (runDeltasTr ds StreamingState.new).1, indexOk p) := by
  refine ⟨?_, ?_, ?_, ?_⟩
  · exact runDeltas_inv ds StreamingState.new (by simp [stateInv, StreamingState.new])
  · rw [runDeltas_append_state]
    exact runDeltas_mono extra _
  · exact (runDeltasTr_erase ds StreamingState.new).1
  · exact runDeltasTr_indexOk ds StreamingState.new

/-- C10 witness instance: the traced tool-block start event of a concrete
run carries the emission-point index 1. -/
theorem c10_streaming_state_invariant_witness :
    indexOk (1, AnthropicEvent.content_block_start 1 "tool_use"
      (Json.obj [("type", Json.str "tool_use"), ("id", Json.str "call_1"),
                 ("name", Json.str "get_weather"), ("input", Json.obj [])])) :=
  (c10_streaming_state_invariant [toolDelta "call_1" "get_weather"] []).2.2.2 _
    (List.Mem.head _)

/-- C4 counterexample: for body "not json" (which the JSON parser rejects)
and HTTP status 500, the envelope and error type are as claimed but the
message is NOT the raw body text verbatim — the code builds a long
diagnostic message that merely embeds the raw body — so the output is not
exactly the claimed three-field object. -/
theorem c4_counterexample :
    (transform_openrouter_error (fun _ => none) (fun _ => "") (fun _ => "")
        "not json" 500 c4_request 0).idx "type" = Json.str "error" ∧
    ((transform_openrouter_error (fun _ => none) (fun _ => "") (fun _ => "")
        "not json" 500 c4_request 0).idx "error").idx "type" = Json.str "api_error" ∧
    (((transform_openrouter_error (fun _ => none) (fun _ => "") (fun _ => "")
        "not json" 500 c4_request 0).idx "error").idx "message").asStr ≠
      some "not json" := by
  refine ⟨rfl, rfl, ?_⟩
  decide

/-- The error-type tag for any 5xx status is api_error. -/
theorem anthropic_error_type_5xx (status_code : Nat)
    (hs : 500 ≤ status_code ∧ status_code ≤ 599) :
    anthropic_error_type status_code = "api_error" := by
  unfold anthropic_error_type
  rw [if_neg (by simp only [beq_iff_eq]; omega), if_neg (by simp only [beq_iff_eq]; omega),
    if_neg (by simp only [beq_iff_eq]; omega), if_neg (by simp only [beq_iff_eq]; omega),
    if_neg (by simp only [beq_iff_eq]; omega), if_pos hs]

/-- A middle component equal to the needle can be extracted from a four-part
concatenation. -/
theorem exists_extract_json (h m s d needle : String) (hm : m = needle) :
    ∃ pre post, Json.str (h ++ m ++ s ++ d) = Json.str (pre ++ needle ++ post) :=
  ⟨h, s ++ d, by rw [hm]; rw [String.append_assoc (h ++ needle) s d]⟩

/-- C4 (amended): on any JSON parse failure of the upstream error body, for a
5xx status the output has top-level type "error" and error type "api_error",
but the message is a composed diagnostic string that embeds the raw body as
the line "Raw Error Response: " followed by the body — the raw body is not
used verbatim as the whole message, and the error object also carries a
request_context field. -/
theorem c4_error_envelope (parse : String → Option Json)
    (displayJson prettyJson : Json → String) (body : String) (status_code : Nat)
    (request : AnthropicRequest) (now_secs : Nat)
    (hp : parse body = none) (hs : 500 ≤ status_code ∧ status_code ≤ 599) :
    (transform_openrouter_error parse displayJson prettyJson body status_code
        request now_secs).idx "type" = Json.str "error" ∧
    ((transform_openrouter_error parse displayJson prettyJson body status_code
        request now_secs).idx "error").idx "type" = Json.str "api_error" ∧
    (∃ pre post,
      ((transform_openrouter_error parse displayJson prettyJson body status_code
          request now_secs).idx "error").idx "message" =
        Json.str (pre ++ ("Raw Error Response: " ++ body ++ "\n") ++ post)) ∧
    ((transform_openrouter_error parse displayJson prettyJson body status_code
        request now_secs).idx "error").get "request_context" ≠ none := by
  refine ⟨rfl, ?_, ?_, ?_⟩
  · show Json.str (anthropic_error_type status_code) = Json.str "api_error"
    rw [anthropic_error_type_5xx status_code hs]
  · simp +decide only [transform_openrouter_error, hp, Json.idx, Json.get, lookupField,
      Option.getD, List.cons_append, List.nil_append]
    exact exists_extract_json _ _ _ _ _ rfl
  · simp +decide [transform_openrouter_error, hp, Json.idx, Json.get, lookupField]

/-- C4 witness instance at body "not json" and status 500. -/
theorem c4_error_envelope_witness :
    (transform_openrouter_error (fun _ => none) (fun _ => "") (fun _ => "")
        "not json" 500 c4_request 0).idx "type" = Json.str "error" ∧
    ((transform_openrouter_error (fun _ => none) (fun _ => "") (fun _ => "")
        "not json" 500 c4_request 0).idx "error").idx "type" = Json.str "api_error" ∧
    (∃ pre post,
      ((transform_openrouter_error (fun _ => none) (fun _ => "") (fun _ => "")
          "not json" 500 c4_request 0).idx "error").idx "message" =
        Json.str (pre ++ ("Raw Error Response: " ++ "not json" ++ "\n") ++ post)) ∧
    ((transform_openrouter_error (fun _ => none) (fun _ => "") (fun _ => "")
        "not json" 500 c4_request 0).idx "error").get "request_context" ≠ none :=
  c4_error_envelope (fun _ => none) (fun _ => "") (fun _ => "") "not json" 500
    c4_request 0 rfl (by decide)
